import Mathlib

/-
  Verification of the RAG retrieval pipeline of this repository
  (backend/app/services: document_processor.py, embeddings.py, reranker.py,
  retrieval.py) against its natural-language specification.

  The Python services are shallowly embedded as pure Lean functions:
  * text is modelled as `List Char` (for the chunker) or `String`,
  * floats that only ever hold scores/vector entries are modelled as `ℚ`
    (the claims under study depend on comparisons and equalities only),
  * fallible operations return `Except`, and a `try/except` block is an
    explicit `match` on the embedded body's result,
  * external collaborators (the OpenAI embeddings endpoint, the Pinecone
    index, the cross-encoder model) are parameters of the embedded
    functions, as the spec treats them as opaque collaborators.
-/

set_option maxRecDepth 2000

namespace Totechan

/-- Decidable equality for `Except`, used to evaluate the embedded fallible
operations on concrete inputs. -/
instance {ε α : Type} [DecidableEq ε] [DecidableEq α] : DecidableEq (Except ε α) := fun x y =>
  match x, y with
  | .ok a, .ok b =>
    if h : a = b then .isTrue (by rw [h]) else .isFalse (fun hc => h (Except.ok.inj hc))
  | .error a, .error b =>
    if h : a = b then .isTrue (by rw [h]) else .isFalse (fun hc => h (Except.error.inj hc))
  | .ok _, .error _ => .isFalse (fun hc => Except.noConfusion hc)
  | .error _, .ok _ => .isFalse (fun hc => Except.noConfusion hc)

/-! ## Chunker — document_processor.DocumentProcessor._create_chunks -/

/-- Python `str.strip()`: drop whitespace from both ends. -/
def pyStrip (l : List Char) : List Char :=
  ((l.dropWhile (·.isWhitespace)).reverse.dropWhile (·.isWhitespace)).reverse

/-- Helper for `re.sub(r'\s+', ' ', text)`: collapse every run of
whitespace to a single space.  The flag records whether the previous
character was whitespace (so the rest of the run is dropped). -/
def collapseWsAux : Bool → List Char → List Char
  | _, [] => []
  | prev, c :: rest =>
    if c.isWhitespace then
      if prev then collapseWsAux true rest
      else ' ' :: collapseWsAux true rest
    else c :: collapseWsAux false rest

/-- `re.sub(r'\s+', ' ', text).strip()` — the normalization performed at the
top of `_create_chunks` (document_processor.py line 367). -/
def normalizeText (l : List Char) : List Char :=
  pyStrip (collapseWsAux false l)

/-- Scan indices `s + n - 1, …, s` (highest first) for a space character.
`t.getD i 'x'` is safe: the function is only used with `s + n ≤ t.length`. -/
def rfindSpaceAux (t : List Char) (s : Nat) : Nat → Option Nat
  | 0 => none
  | n + 1 => if t.getD (s + n) 'x' = ' ' then some (s + n) else rfindSpaceAux t s n

/-- Python `text.rfind(' ', s, e)` (as an `Option` instead of `-1`):
the highest index `i` with `s ≤ i < e` and `t[i] = ' '`. -/
def rfindSpace (t : List Char) (s e : Nat) : Option Nat :=
  rfindSpaceAux t s (e - s)

/-- The window-end computation of `_create_chunks` (lines 377–385):
`end = start + chunk_size`, adjusted back to the last space strictly inside
the window when the window does not already reach the end of the text. -/
def chunkEnd (chunkSize : Nat) (t : List Char) (start : Nat) : Nat :=
  let e := start + chunkSize
  if e < t.length then
    match rfindSpace t start e with
    | some i => i
    | none => e
  else e

/-- `start = max(start + 1, end - self.chunk_overlap)` (line 418). -/
def nextStart (chunkOverlap start e : Nat) : Nat :=
  max (start + 1) (e - chunkOverlap)

/-- One produced chunk: `{"text": …, "metadata": {…}}` with the metadata
fields the claims are about. -/
structure Chunk where
  text : List Char
  chunkIndex : Nat
  startChar : Nat
  endChar : Nat
  charCount : Nat
deriving DecidableEq, Repr

/-- The `while start < len(text)` loop of `_create_chunks` (lines 376–418),
with explicit fuel; `none` means the fuel ran out (the termination theorem
shows `t.length + 1` fuel always suffices, so the loop terminates). -/
def chunkLoopF (chunkSize chunkOverlap : Nat) (t : List Char) :
    Nat → Nat → Nat → Option (List Chunk)
  | 0, _, _ => none
  | fuel + 1, start, idx =>
    if start < t.length then
      let e := chunkEnd chunkSize t start
      let ctext := pyStrip ((t.drop start).take (e - start))
      if ctext = [] then
        chunkLoopF chunkSize chunkOverlap t fuel (nextStart chunkOverlap start e) idx
      else
        match chunkLoopF chunkSize chunkOverlap t fuel (nextStart chunkOverlap start e) (idx + 1) with
        | none => none
        | some rest =>
          some ({ text := ctext, chunkIndex := idx, startChar := start,
                  endChar := e, charCount := ctext.length } :: rest)
    else some []

/-- `DocumentProcessor._create_chunks` (lines 358–420), normal path: clean
the text, return `[]` when it is empty, otherwise run the sliding-window
loop.  (The `except` fallback of lines 422–438 is unreachable for this pure
body and is not modelled.)  Chunk size and overlap are the constructor
fields `self.chunk_size` / `self.chunk_overlap`. -/
def createChunks (chunkSize chunkOverlap : Nat) (raw : List Char) : List Chunk :=
  let t := normalizeText raw
  if t = [] then []
  else (chunkLoopF chunkSize chunkOverlap t (t.length + 1) 0 0).getD []

/-! ## Embedder — embeddings.EmbeddingService -/

/-- The two application exception types raised by `generate_embeddings` /
`_generate_batch_embeddings` (utils/exceptions.py).  `EmbeddingError` and
`ExternalServiceError` are *sibling* subclasses of `RAGException`; neither
is an instance of the other.  Each carries its message (`str(e)`), and
`ExternalServiceError` additionally carries its `service` field. -/
inductive EmbError where
  | embeddingError (msg : String)
  | externalServiceError (msg : String) (service : String)
deriving DecidableEq, Repr

/-- `str(e)` of an embedded exception: the message it was built with. -/
def EmbError.message : EmbError → String
  | .embeddingError m => m
  | .externalServiceError m _ => m

/-- Message of the `EmbeddingError` raised on line 116–118 of embeddings.py. -/
def mismatchMsg (dim got : Nat) : String :=
  "Embedding dimension mismatch: expected " ++ toString dim ++ ", got " ++ toString got

/-- Lines 115–118: `if embeddings and len(embeddings[0]) != self.dimension:
raise EmbeddingError(...)`.  An empty batch passes the check. -/
def dimensionCheck (dim : Nat) (embeddings : List (List Int)) :
    Except String (List (List Int)) :=
  match embeddings with
  | [] => .ok []
  | e0 :: _ =>
    if e0.length ≠ dim then .error (mismatchMsg dim e0.length) else .ok embeddings

/-- One iteration of the `for attempt in range(self.max_retries)` body
(lines 104–127): call the provider, extract the vectors, run the dimension
check.  Any raised exception — the provider's or the dimension-mismatch
`EmbeddingError` — is caught by the `except Exception` of the same loop, so
both surface here as `.error msg` (`msg` = `str(e)`).  The provider is a
function of the batch texts and the attempt number (the attempt index
stands for the temporal nondeterminism of the external call). -/
def attemptOnce (dim : Nat) (provider : List String → Nat → Except String (List (List Int)))
    (texts : List String) (attempt : Nat) : Except String (List (List Int)) :=
  match provider texts attempt with
  | .error e => .error e
  | .ok embeddings => dimensionCheck dim embeddings

/-- The retry loop of `_generate_batch_embeddings` (lines 101–146):
`remaining` attempts are left, `attempt` is the current attempt index,
`lastErr` is the Python `last_error`.  On exhaustion it raises
`ExternalServiceError(f"Failed to generate embeddings after
{self.max_retries} attempts: {str(last_error)}", service="openai")`
with `max_retries = 3`. -/
def generateBatchAux (dim : Nat)
    (provider : List String → Nat → Except String (List (List Int)))
    (texts : List String) :
    Nat → Nat → Option String → Except EmbError (List (List Int))
  | 0, _, lastErr =>
    .error (.externalServiceError
      ("Failed to generate embeddings after 3 attempts: " ++ lastErr.getD "None")
      "openai")
  | remaining + 1, attempt, _ =>
    match attemptOnce dim provider texts attempt with
    | .ok embeddings => .ok embeddings
    | .error msg => generateBatchAux dim provider texts remaining (attempt + 1) (some msg)

/-- `EmbeddingService._generate_batch_embeddings` (lines 94–146) with
`self.max_retries = 3` (line 22).  `batchIndex` is only used for logging in
the source and is unused here. -/
def generateBatchEmbeddings (dim : Nat)
    (provider : List String → Nat → Except String (List (List Int)))
    (texts : List String) (_batchIndex : Nat) : Except EmbError (List (List Int)) :=
  generateBatchAux dim provider texts 3 0 none

/-- Structural worker for `batchesOf`: the fuel is an upper bound on the
number of batches (`texts.length` always suffices for a positive batch
size, since every step drops at least one element). -/
def batchesOfAux (batchSize : Nat) : Nat → List String → List (List String)
  | _, [] => []
  | 0, _ :: _ => []
  | fuel + 1, t :: ts =>
    (t :: ts).take batchSize :: batchesOfAux batchSize fuel ((t :: ts).drop batchSize)

/-- `range(0, len(texts), batch_size)` slicing: `texts[i:i+batch_size]`. -/
def batchesOf (batchSize : Nat) (texts : List String) : List (List String) :=
  batchesOfAux batchSize texts.length texts

/-- The batch loop of `generate_embeddings` (lines 52–64): process the
batches in order (the provider also sees the batch index), concatenating
results; the first batch failure aborts the loop by propagating its
exception.  (The inter-batch `asyncio.sleep` has no functional effect.) -/
def processBatches (dim : Nat)
    (provider : Nat → List String → Nat → Except String (List (List Int))) :
    List (List String) → Nat → Except EmbError (List (List Int))
  | [], _ => .ok []
  | batch :: rest, idx =>
    match generateBatchEmbeddings dim (provider idx) batch idx with
    | .error e => .error e
    | .ok embeddings =>
      match processBatches dim provider rest (idx + 1) with
      | .error e => .error e
      | .ok more => .ok (embeddings ++ more)

/-- `EmbeddingService.generate_embeddings` (lines 32–83) with
`self.batch_size = 100` (line 21): empty input returns `[]`; otherwise the
batches are processed in order and any exception escaping the loop is
caught by the outer `except Exception` (lines 74–83) and re-raised as
`EmbeddingError(f"Failed to generate embeddings: {str(e)}")`. -/
def generateEmbeddings (dim : Nat)
    (provider : Nat → List String → Nat → Except String (List (List Int)))
    (texts : List String) : Except EmbError (List (List Int)) :=
  if texts = [] then .ok []
  else
    match processBatches dim provider (batchesOf 100 texts) 0 with
    | .ok all => .ok all
    | .error e => .error (.embeddingError ("Failed to generate embeddings: " ++ e.message))

/-- Discriminator used to state that a failure is *not* an
`ExternalServiceError` (the exception type the spec names). -/
def isExternalServiceError : Except EmbError (List (List Int)) → Bool
  | .error (.externalServiceError _ _) => true
  | _ => false

/-! ## Reranker — reranker.RerankerService -/

/-- The neutral score `0.5` returned when no cross-encoder model is loaded
(reranker.py lines 69, 100). -/
def neutralScore : ℚ := 1 / 2

/-- The loaded cross-encoder, abstracted to its `predict` function on one
(query, document) pair.  `self.model` is `Option CrossEncoderModel`:
`none` models the load-failure / disabled state (`self.model = None`,
line 57). -/
def CrossEncoderModel : Type := String → String → ℚ

/-- `RerankerService.rerank` (lines 59–100).  With no model it returns
`[0.5] * len(documents)` (line 69, checked *before* the empty-documents
check).  With a model, `_predict_scores` maps the cross-encoder over the
query-document pairs; its batching (16 pairs at a time, lines 102–118)
preserves order and is modelled as a plain `map`.  `topK` only affects
logging (`target_k`) and is unused.  The `except` fallback to neutral
scores (lines 97–100) is unreachable for this pure body. -/
def rerank (model : Option CrossEncoderModel) (query : String)
    (documents : List String) (_topK : Option Nat) : List ℚ :=
  match model with
  | none => List.replicate documents.length neutralScore
  | some m =>
    if documents = [] then []
    else documents.map (fun doc => m query doc)

/-- A vector-search result dict, with the metadata keys the services read
(`metadata["text"]`, `metadata["doc_id"]`, …) flattened into fields, and
the keys that `rerank_with_metadata` may attach modelled as `Option`s that
are `none` while the key is absent. -/
structure SearchResult where
  id : String := ""
  score : ℚ := 0
  text : String := ""
  docId : String := ""
  sourceFilename : String := ""
  pageNumber : Option Nat := none
  chunkIndex : Nat := 0
  url : Option String := none
  rerankScore : Option ℚ := none
  originalScore : Option ℚ := none
  scoreImprovement : Option ℚ := none
  reranked : Bool := false
deriving DecidableEq, Repr

/-- `RerankerService.rerank_with_metadata` (lines 127–169).  With no model
or no results the input list is returned unchanged (line 136).  Otherwise:
extract the texts, score them, attach
`rerank_score`/`original_score`/`score_improvement`/`reranked` to each
result (`for i, result … if i < len(scores)` — modelled by `zip`), sort by
`rerank_score` descending (Python's `list.sort` is stable; `mergeSort`
is the stable sort here) and truncate to `target_k = top_k or
len(reranked_results)` (`0` is falsy). -/
def rerankWithMetadata (model : Option CrossEncoderModel) (query : String)
    (searchResults : List SearchResult) (topK : Option Nat) : List SearchResult :=
  if model.isNone ∨ searchResults = [] then searchResults
  else
    let documents := searchResults.map (·.text)
    let scores := rerank model query documents topK
    let rerankedResults := (searchResults.zip scores).map (fun rs =>
      { rs.1 with rerankScore := some rs.2, originalScore := some rs.1.score,
                  scoreImprovement := some (rs.2 - rs.1.score), reranked := true })
    let targetK := match topK with
      | some k => if k = 0 then rerankedResults.length else k
      | none => rerankedResults.length
    (rerankedResults.mergeSort (fun a b =>
      (b.rerankScore.getD 0) ≤ (a.rerankScore.getD 0))).take targetK

/-! ## Retrieval orchestrator — retrieval.RetrievalService -/

/-- Settings used by the orchestrator (config/settings.py lines 50–54). -/
def topKToRerank : Nat := 20

/-- A Pinecone metadata filter, modelled as an association list from key to
value (string-valued; the only values the claims exercise are the string
scope keys). -/
abbrev FilterDict : Type := List (String × String)

/-- One step of Python `dict.update`: set key `kv.1` to `kv.2`, replacing
an existing binding or appending a new one. -/
def dictSet (m : FilterDict) (kv : String × String) : FilterDict :=
  if m.any (fun p => p.1 = kv.1) then
    m.map (fun p => if p.1 = kv.1 then (p.1, kv.2) else p)
  else m ++ [kv]

/-- Python `base.update(other)`: apply every binding of `other` to `base`. -/
def dictUpdate (base other : FilterDict) : FilterDict :=
  other.foldl dictSet base

/-- Python `dict.get`: the value bound to `key`, if any. -/
def dictGet (m : FilterDict) (key : String) : Option String :=
  (m.find? (fun p => p.1 = key)).map (·.2)

/-- The filter construction of `RetrievalService._perform_vector_search`
(retrieval.py lines 118–123): `user_filter = {"user_id": user_id}`, then
`user_filter.update(filters)` when `filters` is truthy (an empty dict is
falsy and is not merged). -/
def buildUserFilter (userId : String) (filters : Option FilterDict) : FilterDict :=
  let userFilter : FilterDict := [("user_id", userId)]
  match filters with
  | none => userFilter
  | some f => if f = [] then userFilter else dictUpdate userFilter f

/-- `RetrievalConfig` (models/chat_schemas.py lines 32–37) with its
defaults.  (The pydantic range constraints `1 ≤ k ≤ 50`, `0 ≤ threshold ≤ 1`
are enforced at request parsing, not inside the service.) -/
structure RetrievalConfig where
  k : Nat := 8
  rerank : Bool := true
  filters : Option FilterDict := none
  threshold : Option ℚ := none
  hybridSearch : Bool := false

/-- The Python `NameError` raised by line 159 of retrieval.py
(`texts_to_rererank.append(...)`: the name `texts_to_rererank` is never
defined — the list built on line 151 is `texts_to_rerank`). -/
inductive PyExc where
  | nameError
deriving DecidableEq, Repr

/-- The `try` body of `RetrievalService._rerank_results` (lines 149–190).
The extraction loop (lines 154–164) appends the first candidate text whose
`strip()` is non-empty to the undefined name `texts_to_rererank`, raising
`NameError`, so:
* if any result has non-empty stripped text the body raises `NameError`
  before anything else happens (the reranker is never invoked, and the
  sort-by-rerank-score code of lines 176–190 is unreachable);
* otherwise `texts_to_rerank` stays empty and line 167 returns `[]`. -/
def rerankResultsBody (_query : String) (searchResults : List SearchResult)
    (_finalK : Nat) : Except PyExc (List SearchResult) :=
  if searchResults.any (fun r => pyStrip r.text.data ≠ []) then .error .nameError
  else .ok []

/-- `RetrievalService._rerank_results` (lines 142–195): the body above,
with the `except` handler of lines 192–195 falling back to
`search_results[:final_k]` on any exception. -/
def rerankResults (query : String) (searchResults : List SearchResult)
    (finalK : Nat) : List SearchResult :=
  match rerankResultsBody query searchResults finalK with
  | .ok res => res
  | .error _ => searchResults.take finalK

/-- `SourceCitation` (models/chat_schemas.py lines 40–48). -/
structure SourceCitation where
  documentId : String
  filename : String
  pageNumber : Option Nat
  chunkIndex : Nat
  chunkText : String
  relevanceScore : ℚ
  url : Option String
  snippet : String
deriving DecidableEq, Repr

/-- Python `uuid.UUID(s)` validity, as pydantic applies it to
`document_id`: `uuid.UUID` strips dashes and requires exactly 32 hex
digits.  (The rarely used `urn:`/braced forms are not modelled.) -/
def validUuid (s : String) : Bool :=
  let cs := s.data.filter (fun c => c ≠ '-')
  cs.length = 32 && cs.all (fun c => c.isDigit || ('a' ≤ c && c ≤ 'f') || ('A' ≤ c && c ≤ 'F'))

/-- `RetrievalService._create_snippet` (lines 234–259) with
`max_length = 200`: texts of at most 200 characters are returned whole,
longer ones truncated to 200 characters plus `"..."`. -/
def createSnippet (text : String) : String :=
  if text.length ≤ 200 then text
  else String.mk (text.data.take 200) ++ "..."

/-- One iteration of `_convert_to_source_citations` (lines 205–230):
build the `SourceCitation`; pydantic validation failure (a `document_id`
that is not a UUID, or a `relevance_score` outside `[0, 1]`) raises inside
the per-result `try` and the result is skipped (`continue`). -/
def mkSourceCitation (r : SearchResult) : Option SourceCitation :=
  if validUuid r.docId ∧ 0 ≤ r.score ∧ r.score ≤ 1 then
    some { documentId := r.docId, filename := r.sourceFilename,
           pageNumber := r.pageNumber, chunkIndex := r.chunkIndex,
           chunkText := r.text, relevanceScore := r.score, url := r.url,
           snippet := createSnippet r.text }
  else none

/-- `RetrievalService._convert_to_source_citations` (lines 197–232). -/
def convertToSourceCitations (results : List SearchResult) : List SourceCitation :=
  results.filterMap mkSourceCitation

/-- The two external collaborators the orchestrator calls.  `embed` is
`EmbeddingService.generate_single_embedding` (its failure string is the
raised exception's `str`); `search` is
`VectorDBService.search_vectors(query_vector, top_k, filter_dict,
include_metadata=True)`. -/
structure RetrievalEnv where
  embed : String → Except String (List ℚ)
  search : List ℚ → Nat → FilterDict → Except String (List SearchResult)

/-- `RetrievalService._perform_vector_search` (lines 109–140): build the
merged filter, search, and wrap any exception in
`RetrievalError(f"Vector search failed: {str(e)}")`. -/
def performVectorSearch (env : RetrievalEnv) (queryEmbedding : List ℚ)
    (userId : String) (topK : Nat) (filters : Option FilterDict) :
    Except String (List SearchResult) :=
  match env.search queryEmbedding topK (buildUserFilter userId filters) with
  | .error e => .error ("Vector search failed: " ++ e)
  | .ok res => .ok res

/-- The `try` body of `RetrievalService.retrieve_relevant_chunks`
(lines 33–95): embed the query, vector-search with
`initial_k = max(k, top_k_to_rerank) if rerank else k`, return `[]` on no
results, rerank when `rerank and len(search_results) > k` (else keep
`search_results[:k]`), apply the relevance threshold when it is truthy
(`threshold` of `None` or `0.0` skips the filter), and convert to
citations.  Note: `validate_query` (lines 361–384) exists on the service
but is never called here. -/
def retrieveCore (env : RetrievalEnv) (query userId : String)
    (config : RetrievalConfig) : Except String (List SourceCitation) :=
  match env.embed query with
  | .error e => .error e
  | .ok queryEmbedding =>
    let initialK := if config.rerank then max config.k topKToRerank else config.k
    match performVectorSearch env queryEmbedding userId initialK config.filters with
    | .error e => .error e
    | .ok searchResults =>
      if searchResults = [] then .ok []
      else
        let rerankedResults :=
          if config.rerank ∧ config.k < searchResults.length then
            rerankResults query searchResults config.k
          else searchResults.take config.k
        let filteredResults := match config.threshold with
          | some t => if t ≠ 0 then rerankedResults.filter (fun r => t ≤ r.score)
                      else rerankedResults
          | none => rerankedResults
        .ok (convertToSourceCitations filteredResults)

/-- The retrieval error raised by the orchestrator. -/
inductive RetErr where
  | retrievalError (msg : String)
deriving DecidableEq, Repr

/-- `RetrievalService.retrieve_relevant_chunks` (lines 26–107): the body
above with the outer `except Exception` (lines 97–107) wrapping any raised
exception `e` in
`RetrievalError(f"Failed to retrieve relevant chunks: {str(e)}")`. -/
def retrieveRelevantChunks (env : RetrievalEnv) (query userId : String)
    (config : RetrievalConfig) : Except RetErr (List SourceCitation) :=
  match retrieveCore env query userId config with
  | .ok citations => .ok citations
  | .error e => .error (.retrievalError ("Failed to retrieve relevant chunks: " ++ e))

/-- The suspicious-pattern list of `validate_query` (lines 368–372). -/
def suspiciousPatterns : List String :=
  [" DROP ", " DELETE ", " UPDATE ", " INSERT ",
   "<script>", "</script>", "javascript:",
   "SELECT ", " FROM ", " WHERE "]

/-- `needle` occurs as a contiguous substring of `haystack`
(Python `in` on strings). -/
def containsSub (haystack needle : List Char) : Bool :=
  (List.range (haystack.length + 1)).any
    (fun i => (haystack.drop i).take needle.length == needle)

/-- Python `str.upper()` on one character, for the ASCII alphabet (the
suspicious patterns are pure ASCII). -/
def asciiUpperChar (c : Char) : Char :=
  if 'a' ≤ c ∧ c ≤ 'z' then Char.ofNat (c.toNat - 32) else c

/-- Python `str.upper()` for ASCII text. -/
def asciiUpper (l : List Char) : List Char :=
  l.map asciiUpperChar

/-- `RetrievalService.validate_query` (lines 361–384): `False` for
empty/whitespace-only queries and for queries containing (case-insensitively)
one of the suspicious patterns, `True` otherwise.  (`.upper()` is applied to
both sides; the patterns are ASCII.) -/
def validateQuery (query : String) : Bool :=
  if query.data = [] ∨ pyStrip query.data = [] then false
  else
    let queryUpper := asciiUpper query.data
    if suspiciousPatterns.any (fun p => containsSub queryUpper (asciiUpper p.data)) then
      false
    else true

/-! ## Context assembly — retrieval.RetrievalService._format_context_for_llm -/

/-- One entry of the `context_chunks` list built by `get_context_for_query`
(lines 400–412): the fields `_format_context_for_llm` reads. -/
structure ContextChunk where
  text : String
  filename : String
  pageNumber : Option Nat
deriving DecidableEq, Repr

/-- Lines 444–450: `[Source: {filename}{' - Page ' + str(page) if page
else ''}]` followed by a newline and the chunk text.  A `page_number` of
`None` or `0` is falsy. -/
def formatBlock (c : ContextChunk) : String :=
  let pagePart := match c.pageNumber with
    | some p => if p ≠ 0 then " - Page " ++ toString p else ""
    | none => ""
  "[Source: " ++ c.filename ++ pagePart ++ "]" ++ "\n" ++ c.text

/-- The accumulation loop of lines 440–457: starting from running length
`cur`, keep each block whole as long as `cur + len(block)` stays within
`budget`, and `break` at the first block that would exceed it. -/
def takeWithinBudget (budget : Nat) : Nat → List String → List String
  | _, [] => []
  | cur, b :: bs =>
    if budget < cur + b.length then []
    else b :: takeWithinBudget budget (cur + b.length) bs

/-- `RetrievalService._format_context_for_llm` (lines 430–463) with its
default `max_context_length = 4000`: placeholder for an empty chunk list,
otherwise the selected whole blocks joined with `"\n\n"` — the join
separators are *not* counted by `current_length`. -/
def formatContextForLLM (contextChunks : List ContextChunk)
    (maxContextLength : Nat := 4000) : String :=
  if contextChunks = [] then "No relevant context found."
  else
    String.intercalate "\n\n"
      (takeWithinBudget maxContextLength 0 (contextChunks.map formatBlock))

/-! ## Concrete instances used to evaluate the embedded services -/

/-- A provider whose first attempt returns vectors of the wrong dimension
(2 instead of 3) and whose later attempts return the right dimension. -/
def pMix : List String → Nat → Except String (List (List Int)) :=
  fun _ attempt => if attempt = 0 then .ok [[0, 0]] else .ok [[0, 0, 1]]

/-- A provider that always fails with a transient error. -/
def pBoom : Nat → List String → Nat → Except String (List (List Int)) :=
  fun _ _ _ => .error "boom"

/-- Vector-search candidate ranked first by the index. -/
def rOne : SearchResult :=
  { id := "r1", score := 1, text := "banana",
    docId := "00000000-0000-0000-0000-000000000001", sourceFilename := "a.pdf" }

/-- Vector-search candidate ranked second by the index. -/
def rTwo : SearchResult :=
  { id := "r2", score := 0, text := "apple",
    docId := "00000000-0000-0000-0000-000000000002", sourceFilename := "a.pdf" }

/-- The citation `_convert_to_source_citations` builds from `rOne`. -/
def citOne : SourceCitation :=
  { documentId := "00000000-0000-0000-0000-000000000001", filename := "a.pdf",
    pageNumber := none, chunkIndex := 0, chunkText := "banana",
    relevanceScore := 1, url := none, snippet := "banana" }

/-- An environment for exercising the rerank path: the index returns the
two candidates above for every query. -/
def envTwo : RetrievalEnv :=
  { embed := fun _ => .ok [1], search := fun _ _ _ => .ok [rOne, rTwo] }

/-- Rerank-enabled configuration with `k = 1` (fewer than the candidate
count, so step 3 takes the rerank branch). -/
def cfgRerank : RetrievalConfig := { k := 1, rerank := true }

/-- A chunk stored under `userB`'s scope. -/
def resB : SearchResult :=
  { id := "chunkB", score := 1, text := "userB secret",
    docId := "00000000-0000-0000-0000-0000000000b2", sourceFilename := "b.pdf" }

/-- An index holding only `resB` and honouring the exact-match `user_id`
filter it is given (spec §6: the vector index must support exact-match
metadata filters). -/
def envScoped : RetrievalEnv :=
  { embed := fun _ => .ok [1],
    search := fun _ _ filt =>
      if dictGet filt "user_id" = some "userB" then .ok [resB] else .ok [] }

/-- A caller-supplied filter that tries to read `userB`'s documents. -/
def cfgHostile : RetrievalConfig :=
  { rerank := false, filters := some [("user_id", "userB")] }

/-- The citation built from `resB` — `userB`'s document. -/
def citB : SourceCitation :=
  { documentId := "00000000-0000-0000-0000-0000000000b2", filename := "b.pdf",
    pageNumber := none, chunkIndex := 0, chunkText := "userB secret",
    relevanceScore := 1, url := none, snippet := "userB secret" }

/-- An index holding one of `userA`'s chunks, returned for every query. -/
def envPlain : RetrievalEnv :=
  { embed := fun _ => .ok [1],
    search := fun _ _ _ =>
      .ok [{ id := "c1", score := 1, text := "Machine learning is a subset of AI.",
             docId := "00000000-0000-0000-0000-0000000000a1",
             sourceFilename := "a.pdf" }] }

/-- The citation built from `envPlain`'s single candidate. -/
def citA : SourceCitation :=
  { documentId := "00000000-0000-0000-0000-0000000000a1", filename := "a.pdf",
    pageNumber := none, chunkIndex := 0, chunkText := "Machine learning is a subset of AI.",
    relevanceScore := 1, url := none, snippet := "Machine learning is a subset of AI." }

/-- The all-defaults `RetrievalConfig()`. -/
def cfgDefault : RetrievalConfig := {}

/-- A 1988-character chunk text, sized so its formatted block is exactly
2000 characters long. -/
def bigText : String := String.mk (List.replicate 1988 'a')

/-- A context chunk whose formatted block (`"[Source: f]\n" ++ bigText`)
is exactly 2000 characters long. -/
def ccBig : ContextChunk := { text := bigText, filename := "f", pageNumber := none }

/-! ## Helper lemmas -/

/-- The window advance of `_create_chunks` is strictly positive:
`max(start + 1, end - overlap) > start`. -/
lemma nextStart_gt (ov start e : Nat) : start < nextStart ov start e :=
  Nat.lt_of_lt_of_le (Nat.lt_succ_self start) (Nat.le_max_left _ _)

/-- Fuel linear in the remaining text always suffices for the chunking
loop: every iteration advances `start` by at least one character. -/
lemma chunkLoopF_isSome (cs ov : Nat) (t : List Char) :
    ∀ (fuel start idx : Nat), t.length - start < fuel →
      (chunkLoopF cs ov t fuel start idx).isSome = true := by
  intro fuel
  induction fuel with
  | zero => intro start idx hfuel; omega
  | succ n ih =>
    intro start idx hfuel
    by_cases hs : start < t.length
    · have hstep : t.length - nextStart ov start (chunkEnd cs t start) < n := by
        have := nextStart_gt ov start (chunkEnd cs t start)
        omega
      simp only [chunkLoopF, if_pos hs]
      by_cases hc : pyStrip ((t.drop start).take (chunkEnd cs t start - start)) = []
      · simp only [hc, if_pos rfl]
        exact ih _ idx hstep
      · rw [if_neg hc]
        obtain ⟨l, hl⟩ := Option.isSome_iff_exists.mp
          (ih (nextStart ov start (chunkEnd cs t start)) (idx + 1) hstep)
        rw [hl]
        rfl
    · simp only [chunkLoopF, if_neg hs, Option.isSome_some]

/-- A successful backward space search returns an index inside the
searched range. -/
lemma rfindSpaceAux_bounds (t : List Char) (s : Nat) :
    ∀ (n i : Nat), rfindSpaceAux t s n = some i → s ≤ i ∧ i < s + n := by
  intro n
  induction n with
  | zero => intro i h; simp [rfindSpaceAux] at h
  | succ m ih =>
    intro i h
    by_cases hsp : t.getD (s + m) 'x' = ' '
    · simp only [rfindSpaceAux, if_pos hsp, Option.some.injEq] at h
      omega
    · simp only [rfindSpaceAux, if_neg hsp] at h
      have := ih i h
      omega

/-- The adjusted window end never exceeds the raw window end
`start + chunk_size`. -/
lemma chunkEnd_le (cs : Nat) (t : List Char) (start : Nat) :
    chunkEnd cs t start ≤ start + cs := by
  unfold chunkEnd
  by_cases he : start + cs < t.length
  · simp only [if_pos he]
    rcases hr : rfindSpace t start (start + cs) with _ | i
    · simp
    · simp only []
      have hb := rfindSpaceAux_bounds t start (start + cs - start) i hr
      omega
  · simp only [if_neg he]
    omega

/-- Every chunk list the loop produces has sequential indices starting at
the loop's `chunk_index` argument, and every chunk starts strictly inside
the text, ends strictly after it starts, and ends within `chunk_size` of
its start. -/
lemma chunkLoopF_spec (cs ov : Nat) (t : List Char) :
    ∀ (fuel start idx : Nat) (l : List Chunk),
      chunkLoopF cs ov t fuel start idx = some l →
      l.map Chunk.chunkIndex = List.range' idx l.length ∧
      ∀ c ∈ l, c.startChar < c.endChar ∧ c.startChar < t.length ∧
               c.endChar ≤ c.startChar + cs := by
  intro fuel
  induction fuel with
  | zero => intro start idx l h; simp [chunkLoopF] at h
  | succ n ih =>
    intro start idx l h
    by_cases hs : start < t.length
    · simp only [chunkLoopF, if_pos hs] at h
      by_cases hc : pyStrip ((t.drop start).take (chunkEnd cs t start - start)) = []
      · rw [if_pos hc] at h
        exact ih _ idx l h
      · rw [if_neg hc] at h
        rcases hrec : chunkLoopF cs ov t n (nextStart ov start (chunkEnd cs t start)) (idx + 1)
          with _ | rest
        · rw [hrec] at h; exact absurd h (by simp)
        · rw [hrec] at h
          obtain ⟨hidx, hmem⟩ := ih _ (idx + 1) rest hrec
          have hse : start < chunkEnd cs t start := by
            by_contra hle
            push_neg at hle
            have : chunkEnd cs t start - start = 0 := by omega
            rw [this] at hc
            simp [pyStrip] at hc
          simp only [Option.some.injEq] at h
          subst h
          constructor
          · simp only [List.map_cons, List.length_cons, hidx, List.range']
          · intro c hcmem
            rcases hcmem with _ | ⟨_, hmem2⟩
            · exact ⟨hse, hs, chunkEnd_le cs t start⟩
            · exact hmem c hmem2
    · simp only [chunkLoopF, if_neg hs, Option.some.injEq] at h
      subst h
      exact ⟨by simp, by simp⟩

/-- `dropWhile` consumes the whole list when every element satisfies the
predicate. -/
lemma dropWhile_eq_nil_of_all {p : Char → Bool} :
    ∀ {l : List Char}, (∀ c ∈ l, p c = true) → l.dropWhile p = [] := by
  intro l
  induction l with
  | nil => intro _; rfl
  | cons c rest ih =>
    intro h
    rw [List.dropWhile_cons, if_pos (h c (List.mem_cons_self c rest))]
    exact ih (fun x hx => h x (List.mem_cons_of_mem c hx))

/-- Stripping an all-whitespace string leaves nothing. -/
lemma pyStrip_all_ws {l : List Char} (h : ∀ c ∈ l, c.isWhitespace = true) :
    pyStrip l = [] := by
  unfold pyStrip
  rw [dropWhile_eq_nil_of_all h]
  rfl

/-- Whitespace collapsing emits only whitespace when fed only whitespace. -/
lemma collapseWsAux_all_ws :
    ∀ (b : Bool) (l : List Char), (∀ c ∈ l, c.isWhitespace = true) →
      ∀ c ∈ collapseWsAux b l, c.isWhitespace = true := by
  intro b l
  induction l generalizing b with
  | nil => intro _ c hc; simp [collapseWsAux] at hc
  | cons x rest ih =>
    intro h c hc
    have hx : x.isWhitespace = true := h x (List.mem_cons_self x rest)
    have hrest : ∀ c ∈ rest, c.isWhitespace = true :=
      fun y hy => h y (List.mem_cons_of_mem x hy)
    rcases b with _ | _
    · simp [collapseWsAux, hx] at hc
      rcases hc with hceq | hc2
      · subst hceq; decide
      · exact ih true hrest c hc2
    · simp [collapseWsAux, hx] at hc
      exact ih true hrest c hc

/-- Normalizing a whitespace-only (or empty) text yields the empty text. -/
lemma normalizeText_all_ws {l : List Char} (h : ∀ c ∈ l, c.isWhitespace = true) :
    normalizeText l = [] :=
  pyStrip_all_ws (collapseWsAux_all_ws false l h)

/-- The block-selection loop keeps the counted cumulative block length
within the budget. -/
lemma takeWithinBudget_sum_le (budget : Nat) :
    ∀ (bs : List String) (cur : Nat), cur ≤ budget →
      cur + ((takeWithinBudget budget cur bs).map String.length).sum ≤ budget := by
  intro bs
  induction bs with
  | nil => intro cur h; simpa [takeWithinBudget] using h
  | cons b rest ih =>
    intro cur h
    by_cases hb : budget < cur + b.length
    · simpa [takeWithinBudget, if_pos hb] using h
    · push_neg at hb
      have := ih (cur + b.length) hb
      simp only [takeWithinBudget, if_neg (by omega : ¬ budget < cur + b.length),
                 List.map_cons, List.sum_cons]
      omega

/-- The block-selection loop returns an initial segment of the block list:
blocks are kept whole and in order, and selection stops at the first block
that would overflow the budget. -/
lemma takeWithinBudget_isPre (budget : Nat) :
    ∀ (bs : List String) (cur : Nat), takeWithinBudget budget cur bs <+: bs := by
  intro bs
  induction bs with
  | nil => intro cur; simp [takeWithinBudget]
  | cons b rest ih =>
    intro cur
    by_cases hb : budget < cur + b.length
    · simp [takeWithinBudget, if_pos hb]
    · simp only [takeWithinBudget, if_neg hb]
      obtain ⟨tail, htail⟩ := ih (cur + b.length)
      exact ⟨tail, by rw [List.cons_append, htail]⟩

/-- `bigText` is 1988 characters long. -/
lemma bigText_length : bigText.length = 1988 := by
  show (List.replicate 1988 'a').length = 1988
  exact List.length_replicate 1988 'a'

/-- The formatted block of `ccBig` is exactly 2000 characters long. -/
lemma formatBlock_ccBig_length : (formatBlock ccBig).length = 2000 := by
  show ("[Source: " ++ "f" ++ "" ++ "]" ++ "\n" ++ bigText).length = 2000
  rw [String.length_append, String.length_append, String.length_append,
      String.length_append, bigText_length]
  decide

/-- `String.intercalate` on a two-element list. -/
lemma intercalate_pair (s a b : String) : String.intercalate s [a, b] = a ++ s ++ b := rfl

/-- Formatting two `ccBig` chunks keeps both blocks (their counted lengths
sum to exactly the 4000 budget) and joins them with the uncounted
separator. -/
lemma formatContext_ccBig :
    formatContextForLLM [ccBig, ccBig] = formatBlock ccBig ++ "\n\n" ++ formatBlock ccBig := by
  have h1 : ¬ (4000 < 0 + (formatBlock ccBig).length) := by
    rw [formatBlock_ccBig_length]; omega
  have h2 : ¬ (4000 < 0 + (formatBlock ccBig).length + (formatBlock ccBig).length) := by
    rw [formatBlock_ccBig_length]; omega
  simp only [formatContextForLLM]
  rw [if_neg (List.cons_ne_nil ccBig [ccBig])]
  rw [List.map_cons, List.map_cons, List.map_nil]
  rw [takeWithinBudget, if_neg h1, takeWithinBudget, if_neg h2]
  exact intercalate_pair _ _ _

/-- The formatted context for two `ccBig` chunks is 4002 characters long. -/
lemma formatContext_ccBig_length : (formatContextForLLM [ccBig, ccBig]).length = 4002 := by
  rw [formatContext_ccBig, String.length_append, String.length_append,
      formatBlock_ccBig_length]
  decide

/-- A batch whose attempt fails moves the retry loop to the next attempt. -/
lemma generateBatchAux_step (dim : Nat)
    (q : List String → Nat → Except String (List (List Int)))
    (texts : List String) (rem attempt : Nat) (last : Option String) (msg : String)
    (h : attemptOnce dim q texts attempt = .error msg) :
    generateBatchAux dim q texts (rem + 1) attempt last =
      generateBatchAux dim q texts rem (attempt + 1) (some msg) := by
  simp only [generateBatchAux, h]

/-- A successful attempt ends the retry loop with its embeddings. -/
lemma generateBatchAux_found (dim : Nat)
    (q : List String → Nat → Except String (List (List Int)))
    (texts : List String) (rem attempt : Nat) (last : Option String)
    (embs : List (List Int))
    (h : attemptOnce dim q texts attempt = .ok embs) :
    generateBatchAux dim q texts (rem + 1) attempt last = .ok embs := by
  simp only [generateBatchAux, h]

/-- If any batch in the list fails after its retries, the whole batch loop
fails (the first failing batch's exception propagates). -/
lemma processBatches_error_of_batch_error
    (dim : Nat) (p : Nat → List String → Nat → Except String (List (List Int))) :
    ∀ (batches : List (List String)) (idx k : Nat) (b : List String),
      batches[k]? = some b →
      (∃ e, generateBatchEmbeddings dim (p (idx + k)) b (idx + k) = .error e) →
      ∃ e, processBatches dim p batches idx = .error e := by
  intro batches
  induction batches with
  | nil => intro idx k b hk _; simp at hk
  | cons batch rest ih =>
    intro idx k b hk hfail
    rcases hcall : generateBatchEmbeddings dim (p idx) batch idx with e | embs
    · exact ⟨e, by simp only [processBatches, hcall]⟩
    · rcases k with _ | k
      · obtain ⟨e, he⟩ := hfail
        simp only [List.getElem?_cons_zero, Option.some.injEq] at hk
        subst hk
        rw [Nat.add_zero] at he
        rw [hcall] at he
        exact absurd he (by simp)
      · simp only [List.getElem?_cons_succ] at hk
        have hfail2 : ∃ e, generateBatchEmbeddings dim (p ((idx + 1) + k)) b ((idx + 1) + k) =
            .error e := by
          have : idx + (k + 1) = (idx + 1) + k := by omega
          rwa [this] at hfail
        obtain ⟨e, he⟩ := ih (idx + 1) k b hk hfail2
        refine ⟨e, ?_⟩
        simp only [processBatches, hcall, he]

/-- Batching an empty text list yields no batches. -/
lemma batchesOf_nil (bs : Nat) : batchesOf bs [] = [] := rfl

/-! ## Claims -/

/-- C1: The claim says the filter passed to the vector index always maps
`"user_id"` to the caller's scope key, even when the caller-supplied
filters contain a `"user_id"` entry.  It is false on the code:
`user_filter.update(filters)` lets the caller-supplied entry *overwrite*
the scope key.  Evaluated at the failing input: scope key `"userA"` with
caller filters `{"user_id": "userB"}` produces a filter whose `"user_id"`
is `"userB"`, and against an index that honours the filter the pipeline
returns `userB`'s citation to a query scoped to `userA`. -/
theorem user_scope_filter_overridden_by_caller :
    dictGet (buildUserFilter "userA" (some [("user_id", "userB")])) "user_id" = some "userB" ∧
    retrieveRelevantChunks envScoped "any question" "userA" cfgHostile = .ok [citB] :=
  ⟨by decide, by decide⟩

/-- C2: The claim says that with `rerank = true` and more candidates than
`k`, `retrieve_relevant_chunks` returns the top `k` candidates by
descending cross-encoder `rerank_score`.  It is false on the code: line
159 of retrieval.py references the undefined name `texts_to_rererank`, so
`_rerank_results` raises `NameError` for any candidate list with non-empty
text, and the `except` handler falls back to `search_results[:k]` in
vector-index order — cross-encoder scores are never computed.  Evaluated
at the failing input (`k = 1`, two non-empty candidates): the body raises
`NameError`, the fallback keeps the first candidate in vector order, and
the pipeline returns its citation with no rerank score attached. -/
theorem rerank_path_falls_back_to_vector_order :
    rerankResultsBody "any question" [rOne, rTwo] 1 = .error .nameError ∧
    rerankResults "any question" [rOne, rTwo] 1 = [rOne] ∧
    retrieveRelevantChunks envTwo "any question" "userA" cfgRerank = .ok [citOne] :=
  ⟨by decide, by decide, by decide⟩

/-- C3 counterexample: the formatted context string *can* exceed the 4000
character budget, because `current_length` does not count the two-character
`"\n\n"` separators inserted by the final join: two chunks whose blocks are
2000 characters each produce a 4002-character string. -/
theorem formatted_context_exceeds_budget :
    4000 < (formatContextForLLM [ccBig, ccBig]).length ∧
    (formatContextForLLM [ccBig, ccBig]).length = 4002 :=
  ⟨by rw [formatContext_ccBig_length]; omega, formatContext_ccBig_length⟩

/-- C3 (amended): for every non-empty chunk list, the *sum of the block
lengths* included in the formatted context never exceeds the 4000 budget
(the `"\n\n"` separators of the final join are not counted, so the string
itself may exceed the budget by two characters per joint); the included
blocks form an initial segment of the block list — each block is included
whole or not at all, and assembly stops before the first block whose
addition would push the counted length past the budget (in particular a
single block alone exceeding the budget is entirely excluded). -/
theorem context_assembly_block_budget (contextChunks : List ContextChunk)
    (h : contextChunks ≠ []) :
    formatContextForLLM contextChunks =
      String.intercalate "\n\n" (takeWithinBudget 4000 0 (contextChunks.map formatBlock)) ∧
    ((takeWithinBudget 4000 0 (contextChunks.map formatBlock)).map String.length).sum ≤ 4000 ∧
    takeWithinBudget 4000 0 (contextChunks.map formatBlock) <+: contextChunks.map formatBlock := by
  refine ⟨?_, ?_, ?_⟩
  · simp only [formatContextForLLM, if_neg h]
  · have := takeWithinBudget_sum_le 4000 (contextChunks.map formatBlock) 0 (by omega)
    omega
  · exact takeWithinBudget_isPre 4000 (contextChunks.map formatBlock) 0

/-- C3 witness: the amended statement at the one-chunk list `[ccBig]`. -/
theorem context_assembly_block_budget_witness :
    formatContextForLLM [ccBig] =
      String.intercalate "\n\n" (takeWithinBudget 4000 0 ([ccBig].map formatBlock)) ∧
    ((takeWithinBudget 4000 0 ([ccBig].map formatBlock)).map String.length).sum ≤ 4000 ∧
    takeWithinBudget 4000 0 ([ccBig].map formatBlock) <+: [ccBig].map formatBlock :=
  context_assembly_block_budget [ccBig] (List.cons_ne_nil _ _)

/-- C4 counterexample: a dimension mismatch is *not* a hard failure — it
is raised inside the retry loop's `try` and caught by the same loop's
`except Exception`, so the batch is re-attempted.  With a provider whose
first attempt returns 2-dimensional vectors (against a configured
dimension of 3) and whose second attempt returns 3-dimensional vectors,
the call succeeds instead of raising immediately. -/
theorem dimension_mismatch_is_retried :
    dimensionCheck 3 [[0, 0]] = .error (mismatchMsg 3 2) ∧
    generateBatchEmbeddings 3 pMix ["t"] 0 = .ok [[0, 0, 1]] :=
  ⟨by decide, by decide⟩

/-- C4 (amended): the dimension-mismatch `EmbeddingError` is subject to
the retry-with-backoff loop like any other failure: if every attempt
returns mismatched vectors the call fails only after all 3 attempts, with
an `ExternalServiceError` naming `openai` and wrapping the mismatch
message; and if a later attempt returns well-dimensioned vectors after a
mismatched first attempt, the call succeeds with them. -/
theorem dimension_mismatch_retry_semantics (dim : Nat) (v : List Int)
    (vs good : List (List Int)) (texts : List String) (bi : Nat)
    (hmis : v.length ≠ dim) (hgood : dimensionCheck dim good = .ok good) :
    generateBatchEmbeddings dim (fun _ _ => .ok (v :: vs)) texts bi =
      .error (.externalServiceError
        ("Failed to generate embeddings after 3 attempts: " ++ mismatchMsg dim v.length)
        "openai") ∧
    generateBatchEmbeddings dim
      (fun _ attempt => if attempt = 0 then .ok (v :: vs) else .ok good) texts bi =
      .ok good := by
  have hAtt : ∀ (q : List String → Nat → Except String (List (List Int))) (n : Nat),
      q texts n = .ok (v :: vs) →
      attemptOnce dim q texts n = .error (mismatchMsg dim v.length) := by
    intro q n hq
    simp only [attemptOnce, hq, dimensionCheck, if_pos hmis]
  constructor
  · show generateBatchAux dim (fun _ _ => .ok (v :: vs)) texts (2 + 1) 0 none = _
    rw [generateBatchAux_step dim _ texts 2 0 none _ (hAtt _ 0 rfl)]
    show generateBatchAux dim (fun _ _ => .ok (v :: vs)) texts (1 + 1) 1 _ = _
    rw [generateBatchAux_step dim _ texts 1 1 _ _ (hAtt _ 1 rfl)]
    show generateBatchAux dim (fun _ _ => .ok (v :: vs)) texts (0 + 1) 2 _ = _
    rw [generateBatchAux_step dim _ texts 0 2 _ _ (hAtt _ 2 rfl)]
    rfl
  · have hok : attemptOnce dim
        (fun _ attempt => if attempt = 0 then .ok (v :: vs) else .ok good) texts 1 =
        .ok good := by
      show dimensionCheck dim good = .ok good
      exact hgood
    show generateBatchAux dim _ texts (2 + 1) 0 none = _
    rw [generateBatchAux_step dim _ texts 2 0 none _ (hAtt _ 0 rfl)]
    show generateBatchAux dim _ texts (1 + 1) 1 _ = _
    rw [generateBatchAux_found dim _ texts 1 1 _ good hok]

/-- C4 witness: the amended statement at dimension 3, a mismatched
2-dimensional batch, and a well-dimensioned second attempt. -/
theorem dimension_mismatch_retry_semantics_witness :
    generateBatchEmbeddings 3 (fun _ _ => .ok [[0, 0]]) ["t"] 0 =
      .error (.externalServiceError
        ("Failed to generate embeddings after 3 attempts: " ++ mismatchMsg 3 2) "openai") ∧
    generateBatchEmbeddings 3
      (fun _ attempt => if attempt = 0 then .ok [[0, 0]] else .ok [[0, 0, 1]]) ["t"] 0 =
      .ok [[0, 0, 1]] :=
  dimension_mismatch_retry_semantics 3 [0, 0] [] [[0, 0, 1]] ["t"] 0 (by decide) (by decide)

/-- C5 counterexample: when a batch exhausts its retries, the caller does
*not* receive the `ExternalServiceError` naming the provider — the outer
`except Exception` of `generate_embeddings` re-raises it as an
`EmbeddingError` (a sibling exception class) wrapping its message. -/
theorem batch_failure_raises_embedding_error_not_external :
    generateEmbeddings 2 pBoom ["a"] =
      .error (.embeddingError
        "Failed to generate embeddings: Failed to generate embeddings after 3 attempts: boom") ∧
    isExternalServiceError (generateEmbeddings 2 pBoom ["a"]) = false :=
  ⟨by decide, by decide⟩

/-- C5 (amended): when any one of the batches fails all of its up-to-3
attempts, the whole `generate_embeddings` call fails — with an
`EmbeddingError` wrapping the inner failure's message (the inner
`ExternalServiceError` names the provider but is re-wrapped by the outer
handler) — and no partial result is returned: the caller never receives
embeddings for a strict subset of the requested batches. -/
theorem batch_failure_aborts_with_embedding_error (dim : Nat)
    (p : Nat → List String → Nat → Except String (List (List Int)))
    (texts : List String) (k : Nat) (b : List String)
    (hk : (batchesOf 100 texts)[k]? = some b)
    (hfail : ∃ e, generateBatchEmbeddings dim (p k) b k = .error e) :
    ∃ m, generateEmbeddings dim p texts = .error (.embeddingError m) := by
  have htexts : texts ≠ [] := by
    intro hnil
    rw [hnil] at hk
    simp [batchesOf_nil] at hk
  obtain ⟨e, he⟩ := processBatches_error_of_batch_error dim p (batchesOf 100 texts) 0 k b hk
    (by simpa using hfail)
  refine ⟨"Failed to generate embeddings: " ++ e.message, ?_⟩
  simp only [generateEmbeddings, if_neg htexts, he]

/-- C5 witness: the amended statement for a single one-text batch whose
provider always fails. -/
theorem batch_failure_aborts_with_embedding_error_witness :
    ∃ m, generateEmbeddings 2 pBoom ["a"] = .error (.embeddingError m) :=
  batch_failure_aborts_with_embedding_error 2 pBoom ["a"] 0 ["a"] (by decide)
    ⟨.externalServiceError "Failed to generate embeddings after 3 attempts: boom" "openai",
     by decide⟩

/-- C6: The claim says empty, whitespace-only and injection-pattern
queries make retrieval return an empty list without embedding or
searching.  It is false on the code: `validate_query` classifies those
queries as invalid (first three conjuncts), but `retrieve_relevant_chunks`
never calls it — an empty query and a `SELECT * FROM users` query both
proceed to query embedding and vector search and return whatever the index
matches (last two conjuncts, against an index holding one chunk). -/
theorem injection_query_still_searches :
    validateQuery "" = false ∧
    validateQuery "   " = false ∧
    validateQuery "SELECT * FROM users" = false ∧
    retrieveRelevantChunks envPlain "" "userA" cfgDefault = .ok [citA] ∧
    retrieveRelevantChunks envPlain "SELECT * FROM users" "userA" cfgDefault = .ok [citA] :=
  ⟨by decide, by decide, by decide, by decide, by decide⟩

/-- C7: For every text and every `target_size`/`overlap` with
`overlap < target_size`, the chunking loop terminates — fuel exceeding the
remaining text length is never exhausted, because each iteration's window
advance is at least one character; and when `end - overlap ≤ start` the
next start is exactly `start + 1`.  (Termination holds for *every*
overlap; the hypothesis `overlap < target_size` is the claim's.) -/
theorem chunk_loop_terminates (chunkSize chunkOverlap : Nat) (t : List Char)
    (fuel start idx s e : Nat) (_hov : chunkOverlap < chunkSize)
    (hfuel : t.length - start < fuel) (hse : e - chunkOverlap ≤ s) :
    (chunkLoopF chunkSize chunkOverlap t fuel start idx).isSome = true ∧
    nextStart chunkOverlap s e = s + 1 :=
  ⟨chunkLoopF_isSome chunkSize chunkOverlap t fuel start idx hfuel,
   by unfold nextStart; omega⟩

/-- C7 witness: the termination statement at `target_size = 5`,
`overlap = 2`, text `"hi there"`, and a window with `end - overlap ≤ start`. -/
theorem chunk_loop_terminates_witness :
    (chunkLoopF 5 2 "hi there".data 9 0 0).isSome = true ∧
    nextStart 2 7 5 = 7 + 1 :=
  chunk_loop_terminates 5 2 "hi there".data 9 0 0 7 5 (by decide) (by decide) (by decide)

/-- C8 counterexample: `end_char` *can* exceed the length of the
normalized text: for the 5-character text `"hello"` with the configured
`chunk_size = 1000`, the single produced chunk records
`end_char = 1000 > 5` (the final window's raw end `start + chunk_size` is
stored unclamped). -/
theorem chunk_end_char_exceeds_text_length :
    ¬ ∀ c ∈ createChunks 1000 200 ['h', 'e', 'l', 'l', 'o'],
        c.endChar ≤ (normalizeText ['h', 'e', 'l', 'l', 'o']).length := by
  decide

/-- C8 (amended): chunking an empty or whitespace-only input returns the
empty list; every returned chunk satisfies `start_char < end_char` with
`chunk_index` strictly increasing from 0; and `start_char` is an offset
into the normalized text while `end_char` is bounded by
`start_char + chunk_size` but may exceed the length of the normalized text
when the final window overshoots. -/
theorem chunk_invariants (chunkSize chunkOverlap : Nat) (raw : List Char) :
    ((∀ c ∈ raw, c.isWhitespace = true) → createChunks chunkSize chunkOverlap raw = []) ∧
    (createChunks chunkSize chunkOverlap raw).map Chunk.chunkIndex =
      List.range (createChunks chunkSize chunkOverlap raw).length ∧
    ∀ c ∈ createChunks chunkSize chunkOverlap raw,
      c.startChar < c.endChar ∧ c.startChar < (normalizeText raw).length ∧
      c.endChar ≤ c.startChar + chunkSize := by
  by_cases ht : normalizeText raw = []
  · refine ⟨fun _ => by simp [createChunks, ht], by simp [createChunks, ht], ?_⟩
    intro c hc
    simp [createChunks, ht] at hc
  · obtain ⟨l, hl⟩ := Option.isSome_iff_exists.mp
      (chunkLoopF_isSome chunkSize chunkOverlap (normalizeText raw)
        ((normalizeText raw).length + 1) 0 0 (by omega))
    have hcc : createChunks chunkSize chunkOverlap raw = l := by
      simp [createChunks, ht, hl]
    obtain ⟨hidx, hmem⟩ := chunkLoopF_spec chunkSize chunkOverlap (normalizeText raw) _ 0 0 l hl
    refine ⟨fun hws => absurd (normalizeText_all_ws hws) ht, ?_, ?_⟩
    · rw [hcc, hidx]
      exact (List.range_eq_range' l.length).symm
    · intro c hc
      rw [hcc] at hc
      exact hmem c hc

/-- C8 witness: the amended statement at `chunk_size = 5`, `overlap = 2`,
input `"ab cd ef"`. -/
theorem chunk_invariants_witness :
    ((∀ c ∈ "ab cd ef".data, c.isWhitespace = true) → createChunks 5 2 "ab cd ef".data = []) ∧
    (createChunks 5 2 "ab cd ef".data).map Chunk.chunkIndex =
      List.range (createChunks 5 2 "ab cd ef".data).length ∧
    ∀ c ∈ createChunks 5 2 "ab cd ef".data,
      c.startChar < c.endChar ∧ c.startChar < (normalizeText "ab cd ef".data).length ∧
      c.endChar ≤ c.startChar + 5 :=
  chunk_invariants 5 2 "ab cd ef".data

/-- C9: With no cross-encoder model loaded, `rerank` returns exactly
`len(documents)` scores, every one equal to the neutral score `0.5`, for
any query and document list (and, being total, never raises for model
unavailability). -/
theorem rerank_no_model_neutral_scores (query : String) (documents : List String)
    (topK : Option Nat) :
    (rerank none query documents topK).length = documents.length ∧
    rerank none query documents topK = List.replicate documents.length neutralScore :=
  ⟨by simp [rerank], rfl⟩

/-- C10: With no cross-encoder model loaded, `rerank_with_metadata`
returns its input candidate list unchanged — same elements, same order, no
rerank fields attached and no truncation to `top_k`, for every query,
candidate list and `top_k`. -/
theorem rerank_with_metadata_no_model_identity (query : String)
    (searchResults : List SearchResult) (topK : Option Nat) :
    rerankWithMetadata none query searchResults topK = searchResults := by
  simp [rerankWithMetadata]

end Totechan
